import Mathlib

/-!
# NuloAfrica backend — verification of the rental-application core

Shallow embedding of the application/escrow lifecycle, the profile-completion
engine and the trust-score computation of the NuloAfrica FastAPI backend
(`src/app/routes/applications.py`, `src/app/routes/tenants.py`,
`src/app/routes/auth.py`).  Database tables are modelled as association lists
keyed by row id; each route handler becomes a function from state to
(typed result, new state), mirroring the handler's sequence of Supabase
`execute()` calls.
-/

namespace Nulo

/-! ## Python truthiness helpers

The source gates several branches on Python truthiness of values read from
loosely-typed dicts: a numeric field is truthy iff non-zero, a string iff
non-empty, a list iff non-empty, and a missing key (`.get` returning `None`)
is falsy. -/

/-- Truthiness of an optional numeric field (`tenant_data.get("budget")`). -/
def truthyNum : Option Rat → Bool
  | none => false
  | some b => b != 0

/-- Truthiness of an optional string field. -/
def truthyStr : Option String → Bool
  | none => false
  | some s => s != ""

/-- A value stored in the `documents` dict: either a url string
(`id_document`, `proof_of_income`) or a list of strings (`references`). -/
inductive DocValue
  | str (s : String)
  | strList (l : List String)
deriving DecidableEq, Repr

/-- Truthiness of `documents.get(key)`. -/
def truthyDoc : Option DocValue → Bool
  | none => false
  | some (DocValue.str s) => s != ""
  | some (DocValue.strList l) => !l.isEmpty

/-- The `documents` column: either a JSON dict (modelled as an association
list) or some non-dict value, which `calculate_profile_completion` skips via
its `isinstance(documents, dict)` check. A missing column reads as the empty
dict (`tenant_data.get("documents", {})`). -/
inductive PyDocuments
  | dict (entries : List (String × DocValue))
  | nonDict
deriving DecidableEq, Repr

/-- `d.get(k)` on a Python dict modelled as an association list. -/
def dictGet (entries : List (String × DocValue)) (k : String) : Option DocValue :=
  (entries.find? (fun e => e.1 == k)).map (fun e => e.2)

/-! ## Tenant profile row (`tenants` table)

Fields read or written by `calculate_profile_completion`, `complete_profile`
and the application-submission gate. -/

/-- Preferences sub-dict written by `complete_profile`. -/
structure Preferences where
  bedrooms : Nat
  move_in_date : Option String
  join_rent_credit : Bool
deriving DecidableEq, Repr

structure TenantRow where
  budget : Option Rat
  preferred_location : Option String
  preferences : Option Preferences
  documents : PyDocuments
  profile_completion : Nat
  onboarding_completed : Bool
  profile_completed_at : Option Nat
deriving DecidableEq, Repr

/-- `calculate_profile_completion` (tenants.py:270-301): completion is
recomputed fresh from the current field state; each step overwrites the
running value when its condition holds. -/
def calculate_profile_completion (t : TenantRow) : Nat :=
  let completion := 0
  -- Step 1: Preferences (33%)
  let has_preferences := truthyNum t.budget && truthyStr t.preferred_location
  let completion := if has_preferences then 33 else completion
  -- Step 2: Documents (34% more = 67% total)
  let completion :=
    match t.documents with
    | PyDocuments.dict entries =>
        let has_documents :=
          truthyDoc (dictGet entries "id_document") &&
          truthyDoc (dictGet entries "proof_of_income")
        if has_documents then 67 else completion
    | PyDocuments.nonDict => completion
  -- Step 3: Completed (33% more = 100% total)
  if t.onboarding_completed then 100 else completion

/-- Step-1 condition of `calculate_profile_completion` (`has_preferences`). -/
def hasStep1 (t : TenantRow) : Bool :=
  truthyNum t.budget && truthyStr t.preferred_location

/-- Step-2 condition of `calculate_profile_completion` (`has_documents`,
under the `isinstance(documents, dict)` guard). -/
def hasStep2 (t : TenantRow) : Bool :=
  match t.documents with
  | PyDocuments.dict entries =>
      truthyDoc (dictGet entries "id_document") &&
      truthyDoc (dictGet entries "proof_of_income")
  | PyDocuments.nonDict => false

/-- Step-3 condition of `calculate_profile_completion`. -/
def hasStep3 (t : TenantRow) : Bool :=
  t.onboarding_completed

/-- The completion computation, expressed through the three step conditions. -/
theorem calculate_profile_completion_eq (t : TenantRow) :
    calculate_profile_completion t =
      if hasStep3 t then 100 else if hasStep2 t then 67 else if hasStep1 t then 33 else 0 := by
  unfold calculate_profile_completion hasStep1 hasStep2 hasStep3
  cases t.documents <;> simp

/-! ## Users table row and registration / profile completion (auth.py, tenants.py) -/

structure UserRow where
  trust_score : Nat
  verification_status : String
deriving DecidableEq, Repr

/-- The `users` record inserted by `register` (auth.py:41-51). -/
def register_user_record : UserRow :=
  { trust_score := 50, verification_status := "partial" }

/-- The `tenants` record inserted by `register` for a tenant
(auth.py:54-59); fields not set by the insert read as absent. -/
def register_tenant_record : TenantRow :=
  { budget := none, preferred_location := none, preferences := none,
    documents := PyDocuments.dict [], profile_completion := 0,
    onboarding_completed := false, profile_completed_at := none }

/-- Request body of `complete_profile` (tenants.py:28-42). -/
structure CompleteProfileData where
  budget : Rat
  preferred_location : String
  bedrooms : Nat
  move_in_date : Option String
  id_document_url : String
  proof_of_income_url : String
  reference1_email : Option String
  reference2_email : Option String
  join_rent_credit : Bool
deriving DecidableEq, Repr

structure CompleteProfileResult where
  tenant : TenantRow
  user : UserRow
  trust_score : Nat
deriving DecidableEq, Repr

/-- `complete_profile` (tenants.py:190-259): builds the documents dict,
updates the tenant row to 100% completed, then sets the user's trust score
(70, +10 with rent-credit opt-in) and verification status "approved".
The two `update` calls overwrite every modelled field of the tenant and user
rows, so the resulting rows do not depend on the prior rows. -/
def complete_profile (d : CompleteProfileData) (now : Nat) : CompleteProfileResult :=
  let documents : List (String × DocValue) :=
    [("id_document", DocValue.str d.id_document_url),
     ("proof_of_income", DocValue.str d.proof_of_income_url)]
  let references : List String := []
  let references := if truthyStr d.reference1_email
    then references ++ [d.reference1_email.getD ""] else references
  let references := if truthyStr d.reference2_email
    then references ++ [d.reference2_email.getD ""] else references
  let documents := if !references.isEmpty
    then documents ++ [("references", DocValue.strList references)] else documents
  let preferences : Preferences :=
    { bedrooms := d.bedrooms, move_in_date := d.move_in_date,
      join_rent_credit := d.join_rent_credit }
  let tenant' : TenantRow :=
    { budget := some d.budget, preferred_location := some d.preferred_location,
      preferences := some preferences, documents := PyDocuments.dict documents,
      profile_completion := 100, onboarding_completed := true,
      profile_completed_at := some now }
  let new_trust_score := 70  -- Base 50 + Profile completion 20
  let new_trust_score := if d.join_rent_credit then new_trust_score + 10 else new_trust_score
  let user' : UserRow :=
    { trust_score := new_trust_score, verification_status := "approved" }
  { tenant := tenant', user := user', trust_score := new_trust_score }

/-! ## Application lifecycle state (applications.py)

Tables as association lists keyed by row id.  `tableGet` models
`select(...).eq("id", k).single()` (first matching row), `tableUpdate` models
`update(...).eq("id", k)` (every matching row rewritten). -/

structure PropertyRow where
  landlord_id : String
  rent_amount : Rat
  status : String
  application_count : Nat
deriving DecidableEq, Repr

structure AppRow where
  tenant_id : String
  property_id : String
  status : String
  message : Option String
  proposed_move_in_date : Option String
  rejection_reason : Option String
  reason_code : Option String
  reviewed_by : Option String
  reviewed_at : Option Nat
deriving DecidableEq, Repr

structure TxRow where
  application_id : String
  tenant_id : String
  landlord_id : String
  property_id : String
  amount : Rat
  currency : String
  status : String
  held_at : Option Nat
  released_at : Option Nat
  refunded_at : Option Nat
  notes : String
deriving DecidableEq, Repr

structure St where
  tenants : List (String × TenantRow)
  properties : List (String × PropertyRow)
  applications : List (String × AppRow)
  transactions : List (String × TxRow)
deriving DecidableEq, Repr

def tableGet {α : Type} (tbl : List (String × α)) (k : String) : Option α :=
  (tbl.find? (fun r => r.1 == k)).map (fun r => r.2)

def tableUpdate {α : Type} (tbl : List (String × α)) (k : String) (f : α → α) :
    List (String × α) :=
  tbl.map (fun r => if r.1 == k then (r.1, f r.2) else r)

/-- The typed error outcomes raised as `HTTPException` by the three lifecycle
handlers, plus the storage-failure outcome used to model a raising
`execute()` call. -/
inductive Err
  | profileIncomplete
  | notFound (what : String)
  | duplicateApplication
  | forbidden
  | invalidTransition (current : String)
  | storageUnavailable
deriving DecidableEq, Repr

/-- Successful payload of `create_application`. -/
structure SubmitOk where
  appId : String
  app : AppRow
  tx : TxRow
deriving DecidableEq, Repr

/-- `app_dict` (applications.py:77-84): the application row inserted by
submit. -/
def app_dict (tenant_id property_id : String)
    (message proposed_move_in_date : Option String) : AppRow :=
  { tenant_id := tenant_id, property_id := property_id,
    status := "submitted", message := message,
    proposed_move_in_date := proposed_move_in_date,
    rejection_reason := none, reason_code := none,
    reviewed_by := none, reviewed_at := none }

/-- `transaction_dict` (applications.py:97-109): the escrow row inserted by
submit, in state `held` with the property's rent as amount. -/
def transaction_dict (application_id tenant_id : String)
    (property_data : PropertyRow) (property_id : String) (now : Nat) : TxRow :=
  { application_id := application_id, tenant_id := tenant_id,
    landlord_id := property_data.landlord_id,
    property_id := property_id, amount := property_data.rent_amount,
    currency := "NGN", status := "held", held_at := some now,
    released_at := none, refunded_at := none,
    notes := "Mock escrow - payment held pending approval" }

/-- `create_application` (applications.py:29-135), the `submit` operation.
Sequence: read the tenant's stored `profile_completion` (gate, 403 when the
row is absent or below 100), read the property (404 when absent), query
existing applications for the `(tenant_id, property_id)` pair with no status
filter (400 when any row exists), then three separate writes: insert the
application in `submitted`, insert the escrow transaction in `held` with the
property's rent as amount, and read-modify-write the property's
`application_count`.  `newAppId`/`newTxId` are the row ids the store assigns
to the inserts; `now` the clock read. -/
def create_application (st : St) (tenant_id property_id : String)
    (message proposed_move_in_date : Option String)
    (newAppId newTxId : String) (now : Nat) : Except Err SubmitOk × St :=
  let gate := tableGet st.tenants tenant_id
  if (gate.map TenantRow.profile_completion).getD 0 < 100 then
    (Except.error Err.profileIncomplete, st)
  else
    match tableGet st.properties property_id with
    | none => (Except.error (Err.notFound "Property"), st)
    | some property_data =>
      let existing_app := st.applications.filter
        (fun r => r.2.tenant_id == tenant_id && r.2.property_id == property_id)
      if !existing_app.isEmpty then
        (Except.error Err.duplicateApplication, st)
      else
        let app := app_dict tenant_id property_id message proposed_move_in_date
        let st1 := { st with applications := st.applications ++ [(newAppId, app)] }
        let tx := transaction_dict newAppId tenant_id property_data property_id now
        let st2 := { st1 with transactions := st1.transactions ++ [(newTxId, tx)] }
        let currentCount :=
          ((tableGet st2.properties property_id).map PropertyRow.application_count).getD 0
        let newProps := tableUpdate st2.properties property_id
          (fun p => { p with application_count := currentCount + 1 })
        let st3 := { st2 with properties := newProps }
        (Except.ok { appId := newAppId, app := app, tx := tx }, st3)

/-- `create_application` when the `transactions` insert (applications.py:111)
raises.  The route wraps the handler in `try/except` with no transaction
boundary and no compensating delete: the already-executed `applications`
insert stays in the store while the error propagates, and the counter update
never runs. -/
def create_application_txInsertFails (st : St) (tenant_id property_id : String)
    (message proposed_move_in_date : Option String)
    (newAppId : String) : Except Err SubmitOk × St :=
  let gate := tableGet st.tenants tenant_id
  if (gate.map TenantRow.profile_completion).getD 0 < 100 then
    (Except.error Err.profileIncomplete, st)
  else
    match tableGet st.properties property_id with
    | none => (Except.error (Err.notFound "Property"), st)
    | some _property_data =>
      let existing_app := st.applications.filter
        (fun r => r.2.tenant_id == tenant_id && r.2.property_id == property_id)
      if !existing_app.isEmpty then
        (Except.error Err.duplicateApplication, st)
      else
        let app := app_dict tenant_id property_id message proposed_move_in_date
        let st1 := { st with applications := st.applications ++ [(newAppId, app)] }
        (Except.error Err.storageUnavailable, st1)

/-- `approve_application` (applications.py:181-252).  Sequence: fetch the
application with its joined property (404 when absent), ownership check (403
when the joined property is missing or owned by another landlord), status
check (400 unless `submitted`/`under_review`), then three writes: application
to `approved` with review metadata, every transaction row for the application
to `released`, and the property's status to `rented`. -/
def approve_application (st : St) (application_id landlord_id : String)
    (now : Nat) : Except Err Unit × St :=
  match tableGet st.applications application_id with
  | none => (Except.error (Err.notFound "Application"), st)
  | some application =>
    let property_data := tableGet st.properties application.property_id
    match property_data with
    | none => (Except.error Err.forbidden, st)
    | some prop =>
      if prop.landlord_id != landlord_id then
        (Except.error Err.forbidden, st)
      else if !(application.status == "submitted" || application.status == "under_review") then
        (Except.error (Err.invalidTransition application.status), st)
      else
        let newApps := tableUpdate st.applications application_id
          (fun a => { a with status := "approved", reviewed_at := some now,
                             reviewed_by := some landlord_id })
        let st1 := { st with applications := newApps }
        let newTxs := st1.transactions.map (fun r =>
          if r.2.application_id == application_id then
            (r.1, { r.2 with status := "released", released_at := some now })
          else r)
        let st2 := { st1 with transactions := newTxs }
        let newProps := tableUpdate st2.properties application.property_id
          (fun p => { p with status := "rented" })
        let st3 := { st2 with properties := newProps }
        (Except.ok (), st3)

/-- `reject_application` (applications.py:255-323).  Same fetch, ownership
and status checks as approve; then two writes: application to `rejected`
with the stored reason and reason code plus review metadata, and every
transaction row for the application to `refunded`.  The `properties` table
is never touched. -/
def reject_application (st : St) (application_id landlord_id : String)
    (reason reason_code : String) (now : Nat) : Except Err Unit × St :=
  match tableGet st.applications application_id with
  | none => (Except.error (Err.notFound "Application"), st)
  | some application =>
    let property_data := tableGet st.properties application.property_id
    match property_data with
    | none => (Except.error Err.forbidden, st)
    | some prop =>
      if prop.landlord_id != landlord_id then
        (Except.error Err.forbidden, st)
      else if !(application.status == "submitted" || application.status == "under_review") then
        (Except.error (Err.invalidTransition application.status), st)
      else
        let newApps := tableUpdate st.applications application_id
          (fun a => { a with status := "rejected",
                             rejection_reason := some reason,
                             reason_code := some reason_code,
                             reviewed_at := some now,
                             reviewed_by := some landlord_id })
        let st1 := { st with applications := newApps }
        let newTxs := st1.transactions.map (fun r =>
          if r.2.application_id == application_id then
            (r.1, { r.2 with status := "refunded", refunded_at := some now })
          else r)
        let st2 := { st1 with transactions := newTxs }
        (Except.ok (), st2)

/-! ## Escrow/application consistency (spec §3, §8) -/

/-- The spec's status mapping: `submitted`/`under_review` ↔ `held`,
`approved` ↔ `released`, `rejected` ↔ `refunded`. -/
def statusMirror (appStatus txStatus : String) : Bool :=
  ((appStatus == "submitted" || appStatus == "under_review") && txStatus == "held") ||
  (appStatus == "approved" && txStatus == "released") ||
  (appStatus == "rejected" && txStatus == "refunded")

/-- Every escrow transaction's status mirrors the status of the application
row it references. -/
def escrowConsistent (st : St) : Bool :=
  st.applications.all (fun a =>
    st.transactions.all (fun t =>
      !(t.2.application_id == a.1) || statusMirror a.2.status t.2.status))

/-- `if not property_data or property_data.get("landlord_id") != landlord_id`
— the ownership test of approve/reject, true when the joined property is
missing or owned by another landlord. -/
def ownerMismatch (st : St) (app : AppRow) (landlord_id : String) : Bool :=
  match tableGet st.properties app.property_id with
  | none => true
  | some p => p.landlord_id != landlord_id

/-! ## Concrete example rows and states (used by counterexamples and
witnesses) -/

def tenantCompleteEx : TenantRow :=
  { budget := some 200000, preferred_location := some "Lagos",
    preferences := some { bedrooms := 2, move_in_date := none, join_rent_credit := false },
    documents := PyDocuments.dict
      [("id_document", DocValue.str "id.pdf"), ("proof_of_income", DocValue.str "pay.pdf")],
    profile_completion := 100, onboarding_completed := true,
    profile_completed_at := some 1 }

def tenantPartialEx : TenantRow :=
  { budget := some 200000, preferred_location := some "Lagos",
    preferences := none, documents := PyDocuments.dict [],
    profile_completion := 33, onboarding_completed := false,
    profile_completed_at := none }

def propertyEx : PropertyRow :=
  { landlord_id := "l1", rent_amount := 150000, status := "active",
    application_count := 0 }

def appSubmittedEx : AppRow :=
  { tenant_id := "t1", property_id := "p1", status := "submitted",
    message := some "hello", proposed_move_in_date := none,
    rejection_reason := none, reason_code := none,
    reviewed_by := none, reviewed_at := none }

def txHeldEx : TxRow :=
  { application_id := "a1", tenant_id := "t1", landlord_id := "l1",
    property_id := "p1", amount := 150000, currency := "NGN",
    status := "held", held_at := some 2, released_at := none,
    refunded_at := none, notes := "Mock escrow - payment held pending approval" }

def appApprovedEx : AppRow :=
  { appSubmittedEx with status := "approved", reviewed_by := some "l1",
                        reviewed_at := some 5 }

def txReleasedEx : TxRow :=
  { txHeldEx with status := "released", released_at := some 5 }

/-- A complete-profile tenant and an active property, no applications yet. -/
def stReady : St :=
  { tenants := [("t1", tenantCompleteEx)], properties := [("p1", propertyEx)],
    applications := [], transactions := [] }

/-- An incomplete-profile tenant and an active property. -/
def stPartial : St :=
  { tenants := [("t2", tenantPartialEx)], properties := [("p1", propertyEx)],
    applications := [], transactions := [] }

/-- One submitted application with its held escrow transaction. -/
def stSubmitted : St :=
  { tenants := [("t1", tenantCompleteEx)], properties := [("p1", propertyEx)],
    applications := [("a1", appSubmittedEx)], transactions := [("x1", txHeldEx)] }

/-- The same pair after approval: the application is terminal. -/
def stTerminal : St :=
  { tenants := [("t1", tenantCompleteEx)], properties := [("p1", propertyEx)],
    applications := [("a1", appApprovedEx)], transactions := [("x1", txReleasedEx)] }

/-! ## Table helper lemmas -/

theorem tableGet_update_self {α : Type} (tbl : List (String × α)) (k : String)
    (f : α → α) : tableGet (tableUpdate tbl k f) k = (tableGet tbl k).map f := by
  induction tbl with
  | nil => rfl
  | cons hd tl ih =>
    by_cases h : hd.1 = k
    · simp [tableGet, tableUpdate, List.find?, h]
    · simp only [tableGet, tableUpdate, List.map_cons] at ih ⊢
      rw [if_neg (by simpa using h)]
      simp only [List.find?]
      rw [show (hd.1 == k) = false by simpa using h]
      exact ih

theorem escrowConsistent_iff (st : St) :
    escrowConsistent st = true ↔
      ∀ a ∈ st.applications, ∀ t ∈ st.transactions,
        t.2.application_id = a.1 → statusMirror a.2.status t.2.status = true := by
  simp [escrowConsistent, List.all_eq_true, or_iff_not_imp_left, not_not]

/-- Reduction of `create_application` when every precondition passes. -/
theorem create_application_success (st : St) (tid pid : String)
    (msg pmid : Option String) (naid ntid : String) (now : Nat)
    (tp : TenantRow) (prop : PropertyRow)
    (ht : tableGet st.tenants tid = some tp)
    (hge : ¬ tp.profile_completion < 100)
    (hprop : tableGet st.properties pid = some prop)
    (hnodup : (st.applications.filter
      (fun r => r.2.tenant_id == tid && r.2.property_id == pid)).isEmpty = true) :
    create_application st tid pid msg pmid naid ntid now =
      (Except.ok { appId := naid, app := app_dict tid pid msg pmid,
                   tx := transaction_dict naid tid prop pid now },
       { tenants := st.tenants,
         properties := tableUpdate st.properties pid
           (fun p => { p with application_count := prop.application_count + 1 }),
         applications := st.applications ++ [(naid, app_dict tid pid msg pmid)],
         transactions := st.transactions ++ [(ntid, transaction_dict naid tid prop pid now)] }) := by
  simp [create_application, ht, hge, hprop, hnodup]

/-- Reduction of `approve_application` when every precondition passes. -/
theorem approve_application_success (st : St) (aid lid : String) (now : Nat)
    (app : AppRow) (prop : PropertyRow)
    (happ : tableGet st.applications aid = some app)
    (hstatus : (app.status == "submitted" || app.status == "under_review") = true)
    (hprop : tableGet st.properties app.property_id = some prop)
    (hown : prop.landlord_id = lid) :
    approve_application st aid lid now =
      (Except.ok (),
       { tenants := st.tenants,
         properties := tableUpdate st.properties app.property_id
           (fun p => { p with status := "rented" }),
         applications := tableUpdate st.applications aid
           (fun a => { a with status := "approved", reviewed_at := some now,
                              reviewed_by := some lid }),
         transactions := st.transactions.map (fun r =>
           if r.2.application_id == aid then
             (r.1, { r.2 with status := "released", released_at := some now })
           else r) }) := by
  subst hown
  simp [approve_application, happ, hprop, hstatus]

/-- Reduction of `reject_application` when every precondition passes. -/
theorem reject_application_success (st : St) (aid lid reason rcode : String)
    (now : Nat) (app : AppRow) (prop : PropertyRow)
    (happ : tableGet st.applications aid = some app)
    (hstatus : (app.status == "submitted" || app.status == "under_review") = true)
    (hprop : tableGet st.properties app.property_id = some prop)
    (hown : prop.landlord_id = lid) :
    reject_application st aid lid reason rcode now =
      (Except.ok (),
       { tenants := st.tenants,
         properties := st.properties,
         applications := tableUpdate st.applications aid
           (fun a => { a with status := "rejected",
                              rejection_reason := some reason,
                              reason_code := some rcode,
                              reviewed_at := some now,
                              reviewed_by := some lid }),
         transactions := st.transactions.map (fun r =>
           if r.2.application_id == aid then
             (r.1, { r.2 with status := "refunded", refunded_at := some now })
           else r) }) := by
  subst hown
  simp [reject_application, happ, hprop, hstatus]

/-- Every run of `create_application` either leaves the state unchanged or
appends the submitted application and its held transaction (and bumps the
counter). -/
theorem create_application_cases (st : St) (tid pid : String)
    (msg pmid : Option String) (naid ntid : String) (now : Nat) :
    (create_application st tid pid msg pmid naid ntid now).2 = st ∨
    ∃ prop, tableGet st.properties pid = some prop ∧
      (create_application st tid pid msg pmid naid ntid now).2 =
        { tenants := st.tenants,
          properties := tableUpdate st.properties pid
            (fun p => { p with application_count := prop.application_count + 1 }),
          applications := st.applications ++ [(naid, app_dict tid pid msg pmid)],
          transactions := st.transactions ++ [(ntid, transaction_dict naid tid prop pid now)] } := by
  by_cases hgate :
      (((tableGet st.tenants tid).map TenantRow.profile_completion).getD 0) < 100
  · left; simp [create_application, hgate]
  · cases hprop : tableGet st.properties pid with
    | none => left; simp [create_application, hgate, hprop]
    | some prop =>
      by_cases hdup : (st.applications.filter
          (fun r => r.2.tenant_id == tid && r.2.property_id == pid)).isEmpty
      · right
        exact ⟨prop, rfl, by simp [create_application, hgate, hprop, hdup]⟩
      · left; simp [create_application, hgate, hprop, hdup]

/-- Every run of `approve_application` either leaves the state unchanged or
applies the three approve writes. -/
theorem approve_application_cases (st : St) (aid lid : String) (now : Nat) :
    (approve_application st aid lid now).2 = st ∨
    ∃ app, tableGet st.applications aid = some app ∧
      (approve_application st aid lid now).2 =
        { tenants := st.tenants,
          properties := tableUpdate st.properties app.property_id
            (fun p => { p with status := "rented" }),
          applications := tableUpdate st.applications aid
            (fun a => { a with status := "approved", reviewed_at := some now,
                               reviewed_by := some lid }),
          transactions := st.transactions.map (fun r =>
            if r.2.application_id == aid then
              (r.1, { r.2 with status := "released", released_at := some now })
            else r) } := by
  cases happ : tableGet st.applications aid with
  | none => left; simp [approve_application, happ]
  | some app =>
    cases hprop : tableGet st.properties app.property_id with
    | none => left; simp [approve_application, happ, hprop]
    | some prop =>
      by_cases hlid : (prop.landlord_id != lid) = true
      · left; simp [approve_application, happ, hprop, hlid]
      · by_cases hstat : (app.status == "submitted" || app.status == "under_review") = true
        · right
          exact ⟨app, rfl, by simp [approve_application, happ, hprop, hlid, hstat]⟩
        · left; simp [approve_application, happ, hprop, hlid, hstat]

/-- Every run of `reject_application` either leaves the state unchanged or
applies the two reject writes; the properties table is never written. -/
theorem reject_application_cases (st : St) (aid lid reason rcode : String)
    (now : Nat) :
    (reject_application st aid lid reason rcode now).2 = st ∨
    ∃ app, tableGet st.applications aid = some app ∧
      (reject_application st aid lid reason rcode now).2 =
        { tenants := st.tenants,
          properties := st.properties,
          applications := tableUpdate st.applications aid
            (fun a => { a with status := "rejected",
                               rejection_reason := some reason,
                               reason_code := some rcode,
                               reviewed_at := some now,
                               reviewed_by := some lid }),
          transactions := st.transactions.map (fun r =>
            if r.2.application_id == aid then
              (r.1, { r.2 with status := "refunded", refunded_at := some now })
            else r) } := by
  cases happ : tableGet st.applications aid with
  | none => left; simp [reject_application, happ]
  | some app =>
    cases hprop : tableGet st.properties app.property_id with
    | none => left; simp [reject_application, happ, hprop]
    | some prop =>
      by_cases hlid : (prop.landlord_id != lid) = true
      · left; simp [reject_application, happ, hprop, hlid]
      · by_cases hstat : (app.status == "submitted" || app.status == "under_review") = true
        · right
          exact ⟨app, rfl, by simp [reject_application, happ, hprop, hlid, hstat]⟩
        · left; simp [reject_application, happ, hprop, hlid, hstat]

/-- Consistency is preserved by `create_application`, provided the store
assigns a fresh application id (no existing application row carries it and
no existing transaction references it). -/
theorem escrowConsistent_create (st : St) (tid pid : String)
    (msg pmid : Option String) (naid ntid : String) (now : Nat)
    (hc : escrowConsistent st = true)
    (hf1 : ∀ r ∈ st.applications, r.1 ≠ naid)
    (hf2 : ∀ r ∈ st.transactions, r.2.application_id ≠ naid) :
    escrowConsistent (create_application st tid pid msg pmid naid ntid now).2 = true := by
  rcases create_application_cases st tid pid msg pmid naid ntid now with h | ⟨prop, hprop, h⟩
  · rw [h]; exact hc
  · rw [h]
    rw [escrowConsistent_iff] at hc ⊢
    intro a ha t htm heq
    rcases List.mem_append.mp ha with ha' | ha'
    · rcases List.mem_append.mp htm with htm' | htm'
      · exact hc a ha' t htm' heq
      · have ht : t = (ntid, transaction_dict naid tid prop pid now) := by
          simpa using htm'
        subst ht
        exact absurd heq.symm (hf1 a ha')
    · have ha2 : a = (naid, app_dict tid pid msg pmid) := by simpa using ha'
      subst ha2
      rcases List.mem_append.mp htm with htm' | htm'
      · exact absurd heq (hf2 t htm')
      · have ht : t = (ntid, transaction_dict naid tid prop pid now) := by
          simpa using htm'
        subst ht
        rfl

/-- Consistency is preserved by `approve_application`. -/
theorem escrowConsistent_approve (st : St) (aid lid : String) (now : Nat)
    (hc : escrowConsistent st = true) :
    escrowConsistent (approve_application st aid lid now).2 = true := by
  rcases approve_application_cases st aid lid now with h | ⟨app, happ, h⟩
  · rw [h]; exact hc
  · rw [h]
    rw [escrowConsistent_iff] at hc ⊢
    intro a ha t htm heq
    rcases List.mem_map.mp ha with ⟨a0, ha0, rfl⟩
    rcases List.mem_map.mp htm with ⟨t0, ht0, rfl⟩
    by_cases hak : a0.1 = aid
    · by_cases htk : t0.2.application_id = aid
      · simp [hak, htk, statusMirror]
      · simp [hak, htk] at heq
    · by_cases htk : t0.2.application_id = aid
      · simp [hak, htk] at heq
        exact absurd heq.symm hak
      · simp [hak, htk] at heq ⊢
        exact hc a0 ha0 t0 ht0 heq

/-- Consistency is preserved by `reject_application`. -/
theorem escrowConsistent_reject (st : St) (aid lid reason rcode : String)
    (now : Nat) (hc : escrowConsistent st = true) :
    escrowConsistent (reject_application st aid lid reason rcode now).2 = true := by
  rcases reject_application_cases st aid lid reason rcode now with h | ⟨app, happ, h⟩
  · rw [h]; exact hc
  · rw [h]
    rw [escrowConsistent_iff] at hc ⊢
    intro a ha t htm heq
    rcases List.mem_map.mp ha with ⟨a0, ha0, rfl⟩
    rcases List.mem_map.mp htm with ⟨t0, ht0, rfl⟩
    by_cases hak : a0.1 = aid
    · by_cases htk : t0.2.application_id = aid
      · simp [hak, htk, statusMirror]
      · simp [hak, htk] at heq
    · by_cases htk : t0.2.application_id = aid
      · simp [hak, htk] at heq
        exact absurd heq.symm hak
      · simp [hak, htk] at heq ⊢
        exact hc a0 ha0 t0 ht0 heq

/-- Tenant row with only the step-1 preference fields filled in. -/
def tenantStep1Ex : TenantRow :=
  { budget := some 50000, preferred_location := some "Abuja",
    preferences := none, documents := PyDocuments.dict [],
    profile_completion := 0, onboarding_completed := false,
    profile_completed_at := none }

/-- Tenant row with only the step-2 documents present (step-1 fields absent). -/
def tenantStep2Ex : TenantRow :=
  { budget := none, preferred_location := none, preferences := none,
    documents := PyDocuments.dict
      [("id_document", DocValue.str "id.png"), ("proof_of_income", DocValue.str "slip.png")],
    profile_completion := 0, onboarding_completed := false,
    profile_completed_at := none }

/-! ## Claim theorems -/

/-- C8: `calculate_profile_completion` is a pure function of the profile's
current fields returning 0 on the empty profile created at registration, at
least 33 when both `budget` and `preferred_location` are present (truthy), at
least 67 when both `id_document` and `proof_of_income` are present in
`documents` even without step-1 fields, exactly 100 when
`onboarding_completed` is set, and it is monotone non-decreasing in the
Step1 < Step2 < Step3 order of field completeness. -/
theorem profile_completion_spec :
    calculate_profile_completion register_tenant_record = 0 ∧
    (∀ t : TenantRow, hasStep1 t = true → 33 ≤ calculate_profile_completion t) ∧
    (∀ t : TenantRow, hasStep2 t = true → 67 ≤ calculate_profile_completion t) ∧
    (∀ t : TenantRow, t.onboarding_completed = true → calculate_profile_completion t = 100) ∧
    (∀ t1 t2 : TenantRow,
      (hasStep1 t1 = true → hasStep1 t2 = true) →
      (hasStep2 t1 = true → hasStep2 t2 = true) →
      (hasStep3 t1 = true → hasStep3 t2 = true) →
      calculate_profile_completion t1 ≤ calculate_profile_completion t2) := by
  refine ⟨rfl, ?_, ?_, ?_, ?_⟩
  · intro t h1
    rw [calculate_profile_completion_eq]
    split_ifs <;> omega
  · intro t h2
    rw [calculate_profile_completion_eq]
    split_ifs <;> omega
  · intro t h3
    rw [calculate_profile_completion_eq]
    simp [hasStep3, h3]
  · intro t1 t2 h1 h2 h3
    rw [calculate_profile_completion_eq, calculate_profile_completion_eq]
    split_ifs <;> first | omega | simp_all

/-- Witness for C8 at concrete profiles. -/
theorem profile_completion_spec_witness :
    33 ≤ calculate_profile_completion tenantStep1Ex ∧
    67 ≤ calculate_profile_completion tenantStep2Ex ∧
    calculate_profile_completion tenantCompleteEx = 100 ∧
    calculate_profile_completion tenantStep1Ex ≤ calculate_profile_completion tenantCompleteEx :=
  ⟨profile_completion_spec.2.1 tenantStep1Ex (by decide),
   profile_completion_spec.2.2.1 tenantStep2Ex (by decide),
   profile_completion_spec.2.2.2.1 tenantCompleteEx (by decide),
   profile_completion_spec.2.2.2.2 tenantStep1Ex tenantCompleteEx
     (by decide) (by decide) (by decide)⟩

/-- C9: registration stores trust score 50 with verification status
"partial"; completing the profile sets the trust score to 80 with the
rent-credit opt-in and 70 without, and sets verification status to
"approved" at that same moment (the only write of either field in the
modelled operations). -/
theorem trust_score_spec :
    register_user_record.trust_score = 50 ∧
    register_user_record.verification_status = "partial" ∧
    ∀ (d : CompleteProfileData) (now : Nat),
      (complete_profile d now).user.trust_score = (if d.join_rent_credit then 80 else 70) ∧
      (complete_profile d now).trust_score = (if d.join_rent_credit then 80 else 70) ∧
      (complete_profile d now).user.verification_status = "approved" ∧
      (complete_profile d now).tenant.onboarding_completed = true ∧
      (complete_profile d now).tenant.profile_completion = 100 := by
  refine ⟨rfl, rfl, ?_⟩
  intro d now
  cases hj : d.join_rent_credit <;> simp [complete_profile, hj]

/-- C1: starting from any state in which every escrow transaction's status
mirrors its application's status under submitted/under_review↔held,
approved↔released, rejected↔refunded, each lifecycle operation — submit,
approve, reject — leaves the state consistent again (for submit, under the
store's guarantee that the inserted application row gets a fresh id). -/
theorem escrow_never_diverges (st : St) (tid pid : String)
    (msg pmid : Option String) (naid ntid aid lid reason rcode : String)
    (now : Nat)
    (hc : escrowConsistent st = true)
    (hf1 : ∀ r ∈ st.applications, r.1 ≠ naid)
    (hf2 : ∀ r ∈ st.transactions, r.2.application_id ≠ naid) :
    escrowConsistent (create_application st tid pid msg pmid naid ntid now).2 = true ∧
    escrowConsistent (approve_application st aid lid now).2 = true ∧
    escrowConsistent (reject_application st aid lid reason rcode now).2 = true :=
  ⟨escrowConsistent_create st tid pid msg pmid naid ntid now hc hf1 hf2,
   escrowConsistent_approve st aid lid now hc,
   escrowConsistent_reject st aid lid reason rcode now hc⟩

/-- Witness for C1 at a concrete consistent state. -/
theorem escrow_never_diverges_witness :
    escrowConsistent (create_application stSubmitted "t1" "p1" none none "a9" "x9" 5).2 = true ∧
    escrowConsistent (approve_application stSubmitted "a1" "l1" 5).2 = true ∧
    escrowConsistent (reject_application stSubmitted "a1" "l1" "not eligible" "R1" 5).2 = true :=
  escrow_never_diverges stSubmitted "t1" "p1" none none "a9" "x9" "a1" "l1"
    "not eligible" "R1" 5 (by decide) (by decide) (by decide)

/-- C4: when the tenant's stored `profile_completion` is below 100, submit
fails with the profile-incomplete error and the state — applications,
transactions, property counters — is entirely unchanged. -/
theorem submit_profile_gate (st : St) (tid pid : String)
    (msg pmid : Option String) (naid ntid : String) (now : Nat)
    (tp : TenantRow)
    (ht : tableGet st.tenants tid = some tp)
    (hlt : tp.profile_completion < 100) :
    create_application st tid pid msg pmid naid ntid now =
      (Except.error Err.profileIncomplete, st) := by
  simp [create_application, ht, hlt]

/-- Witness for C4 at a 33%-complete tenant. -/
theorem submit_profile_gate_witness :
    create_application stPartial "t2" "p1" none none "a1" "x1" 0 =
      (Except.error Err.profileIncomplete, stPartial) :=
  submit_profile_gate stPartial "t2" "p1" none none "a1" "x1" 0 tenantPartialEx
    rfl (by decide)

/-- C5: approve and reject are single-fire — on an application already in a
terminal state (approved or rejected), either call by the owning landlord
returns the invalid-transition error and returns the state unchanged. -/
theorem terminal_single_fire (st : St) (aid lid reason rcode : String)
    (now : Nat) (app : AppRow) (prop : PropertyRow)
    (happ : tableGet st.applications aid = some app)
    (hterm : app.status = "approved" ∨ app.status = "rejected")
    (hprop : tableGet st.properties app.property_id = some prop)
    (hown : prop.landlord_id = lid) :
    approve_application st aid lid now =
      (Except.error (Err.invalidTransition app.status), st) ∧
    reject_application st aid lid reason rcode now =
      (Except.error (Err.invalidTransition app.status), st) := by
  have hs : (app.status == "submitted" || app.status == "under_review") = false := by
    rcases hterm with h | h <;> rw [h] <;> rfl
  subst hown
  constructor
  · simp [approve_application, happ, hprop, hs]
  · simp [reject_application, happ, hprop, hs]

/-- Witness for C5 on an approved application. -/
theorem terminal_single_fire_witness :
    approve_application stTerminal "a1" "l1" 9 =
      (Except.error (Err.invalidTransition "approved"), stTerminal) ∧
    reject_application stTerminal "a1" "l1" "r" "R9" 9 =
      (Except.error (Err.invalidTransition "approved"), stTerminal) :=
  terminal_single_fire stTerminal "a1" "l1" "r" "R9" 9 appApprovedEx propertyEx
    rfl (Or.inl rfl) rfl rfl

/-- C6: on a submitted or under-review application, approve by the owning
landlord succeeds, sets the application to approved recording reviewer and
review time, sets every escrow transaction of the application to released,
and sets the property's status to rented. -/
theorem approve_effects (st : St) (aid lid : String) (now : Nat)
    (app : AppRow) (prop : PropertyRow)
    (happ : tableGet st.applications aid = some app)
    (hstatus : app.status = "submitted" ∨ app.status = "under_review")
    (hprop : tableGet st.properties app.property_id = some prop)
    (hown : prop.landlord_id = lid) :
    (approve_application st aid lid now).1 = Except.ok () ∧
    tableGet (approve_application st aid lid now).2.applications aid =
      some { app with status := "approved", reviewed_at := some now,
                      reviewed_by := some lid } ∧
    (∀ t ∈ (approve_application st aid lid now).2.transactions,
      t.2.application_id = aid →
        t.2.status = "released" ∧ t.2.released_at = some now) ∧
    tableGet (approve_application st aid lid now).2.properties app.property_id =
      some { prop with status := "rented" } := by
  have hs : (app.status == "submitted" || app.status == "under_review") = true := by
    rcases hstatus with h | h <;> rw [h] <;> rfl
  rw [approve_application_success st aid lid now app prop happ hs hprop hown]
  refine ⟨rfl, ?_, ?_, ?_⟩
  · simp [tableGet_update_self, happ]
  · intro t htm heq
    rcases List.mem_map.mp htm with ⟨t0, ht0, rfl⟩
    by_cases htk : t0.2.application_id = aid
    · simp [htk]
    · simp [htk] at heq
  · simp [tableGet_update_self, hprop]

/-- Witness for C6 at the submitted example state. -/
theorem approve_effects_witness :
    (approve_application stSubmitted "a1" "l1" 7).1 = Except.ok () ∧
    tableGet (approve_application stSubmitted "a1" "l1" 7).2.applications "a1" =
      some { appSubmittedEx with status := "approved", reviewed_at := some 7,
                                 reviewed_by := some "l1" } ∧
    (∀ t ∈ (approve_application stSubmitted "a1" "l1" 7).2.transactions,
      t.2.application_id = "a1" →
        t.2.status = "released" ∧ t.2.released_at = some 7) ∧
    tableGet (approve_application stSubmitted "a1" "l1" 7).2.properties
        appSubmittedEx.property_id = some { propertyEx with status := "rented" } :=
  approve_effects stSubmitted "a1" "l1" 7 appSubmittedEx propertyEx
    rfl (Or.inl rfl) rfl rfl

/-- C7: on a submitted or under-review application, reject by the owning
landlord succeeds, sets the application to rejected storing the given reason
and reason code with reviewer metadata, sets every escrow transaction of the
application to refunded, and leaves the whole properties table — status and
counters — unchanged. -/
theorem reject_effects (st : St) (aid lid reason rcode : String) (now : Nat)
    (app : AppRow) (prop : PropertyRow)
    (happ : tableGet st.applications aid = some app)
    (hstatus : app.status = "submitted" ∨ app.status = "under_review")
    (hprop : tableGet st.properties app.property_id = some prop)
    (hown : prop.landlord_id = lid) :
    (reject_application st aid lid reason rcode now).1 = Except.ok () ∧
    tableGet (reject_application st aid lid reason rcode now).2.applications aid =
      some { app with status := "rejected", rejection_reason := some reason,
                      reason_code := some rcode, reviewed_at := some now,
                      reviewed_by := some lid } ∧
    (∀ t ∈ (reject_application st aid lid reason rcode now).2.transactions,
      t.2.application_id = aid →
        t.2.status = "refunded" ∧ t.2.refunded_at = some now) ∧
    (reject_application st aid lid reason rcode now).2.properties = st.properties := by
  have hs : (app.status == "submitted" || app.status == "under_review") = true := by
    rcases hstatus with h | h <;> rw [h] <;> rfl
  rw [reject_application_success st aid lid reason rcode now app prop happ hs hprop hown]
  refine ⟨rfl, ?_, ?_, rfl⟩
  · simp [tableGet_update_self, happ]
  · intro t htm heq
    rcases List.mem_map.mp htm with ⟨t0, ht0, rfl⟩
    by_cases htk : t0.2.application_id = aid
    · simp [htk]
    · simp [htk] at heq

/-- Witness for C7 at the submitted example state. -/
theorem reject_effects_witness :
    (reject_application stSubmitted "a1" "l1" "not eligible" "R1" 7).1 = Except.ok () ∧
    tableGet (reject_application stSubmitted "a1" "l1" "not eligible" "R1" 7).2.applications "a1" =
      some { appSubmittedEx with status := "rejected",
                                 rejection_reason := some "not eligible",
                                 reason_code := some "R1", reviewed_at := some 7,
                                 reviewed_by := some "l1" } ∧
    (∀ t ∈ (reject_application stSubmitted "a1" "l1" "not eligible" "R1" 7).2.transactions,
      t.2.application_id = "a1" →
        t.2.status = "refunded" ∧ t.2.refunded_at = some 7) ∧
    (reject_application stSubmitted "a1" "l1" "not eligible" "R1" 7).2.properties =
      stSubmitted.properties :=
  reject_effects stSubmitted "a1" "l1" "not eligible" "R1" 7 appSubmittedEx propertyEx
    rfl (Or.inl rfl) rfl rfl

/-- C10: in approve and reject, a missing application yields the not-found
error before any other check, and the ownership check precedes the status
check: whenever the joined property is missing or owned by another landlord,
the result is the forbidden error with the state unchanged, regardless of
the application's status (in particular on terminal applications, never the
invalid-transition error). -/
theorem review_error_precedence (st : St) (aid lid reason rcode : String)
    (now : Nat) :
    (tableGet st.applications aid = none →
      approve_application st aid lid now =
        (Except.error (Err.notFound "Application"), st) ∧
      reject_application st aid lid reason rcode now =
        (Except.error (Err.notFound "Application"), st)) ∧
    (∀ app, tableGet st.applications aid = some app →
      ownerMismatch st app lid = true →
      approve_application st aid lid now = (Except.error Err.forbidden, st) ∧
      reject_application st aid lid reason rcode now =
        (Except.error Err.forbidden, st)) := by
  constructor
  · intro h
    constructor
    · simp [approve_application, h]
    · simp [reject_application, h]
  · intro app happ hmm
    cases hprop : tableGet st.properties app.property_id with
    | none =>
      constructor
      · simp [approve_application, happ, hprop]
      · simp [reject_application, happ, hprop]
    | some p =>
      have hmm' : (p.landlord_id != lid) = true := by
        unfold ownerMismatch at hmm; rw [hprop] at hmm; exact hmm
      constructor
      · simp [approve_application, happ, hprop, hmm']
      · simp [reject_application, happ, hprop, hmm']

/-- Witness for C10: missing application, and a non-owner landlord on a
terminal application. -/
theorem review_error_precedence_witness :
    approve_application stTerminal "zzz" "l1" 0 =
      (Except.error (Err.notFound "Application"), stTerminal) ∧
    approve_application stTerminal "a1" "l2" 0 =
      (Except.error Err.forbidden, stTerminal) :=
  ⟨((review_error_precedence stTerminal "zzz" "l1" "r" "c" 0).1 rfl).1,
   ((review_error_precedence stTerminal "a1" "l2" "r" "c" 0).2 appApprovedEx
     rfl (by decide)).1⟩

/-- C3 counterexample: in `stTerminal` the only application for the pair
`("t1", "p1")` is terminal (`approved`), yet a fresh submit by the same
tenant for the same property still fails with the duplicate error — the
existing-application query has no status filter. -/
theorem resubmit_after_terminal_blocked :
    (create_application stTerminal "t1" "p1" none none "a2" "x2" 7).1 =
      Except.error Err.duplicateApplication := by
  rfl

/-- C3 (amended): once the profile gate and the property lookup pass, submit
fails with the duplicate error exactly when any application row — of any
status, terminal included — exists for the `(tenant_id, property_id)`
pair. -/
theorem duplicate_check_any_status (st : St) (tid pid : String)
    (msg pmid : Option String) (naid ntid : String) (now : Nat)
    (tp : TenantRow) (prop : PropertyRow)
    (ht : tableGet st.tenants tid = some tp)
    (hge : ¬ tp.profile_completion < 100)
    (hprop : tableGet st.properties pid = some prop) :
    (create_application st tid pid msg pmid naid ntid now).1 =
        Except.error Err.duplicateApplication ↔
      ∃ r ∈ st.applications, r.2.tenant_id = tid ∧ r.2.property_id = pid := by
  by_cases hdup : (st.applications.filter
      (fun r => r.2.tenant_id == tid && r.2.property_id == pid)).isEmpty
  · rw [create_application_success st tid pid msg pmid naid ntid now tp prop
      ht hge hprop hdup]
    rw [List.isEmpty_iff, List.filter_eq_nil_iff] at hdup
    have hno : ¬∃ r ∈ st.applications, r.2.tenant_id = tid ∧ r.2.property_id = pid := by
      rintro ⟨r, hr, h1, h2⟩
      exact hdup r hr (by simp [h1, h2])
    simp [hno]
  · have hres : (create_application st tid pid msg pmid naid ntid now).1 =
        Except.error Err.duplicateApplication := by
      simp [create_application, ht, hge, hprop, hdup]
    rw [hres]
    have hne : st.applications.filter
        (fun r => r.2.tenant_id == tid && r.2.property_id == pid) ≠ [] := by
      simpa [List.isEmpty_iff] using hdup
    obtain ⟨r, hrmem⟩ := List.exists_mem_of_ne_nil _ hne
    have hm := List.mem_filter.mp hrmem
    exact iff_of_true rfl ⟨r, hm.1, by simpa using hm.2⟩

/-- Witness for the amended C3: the duplicate error fires on a pair whose
only existing application is approved. -/
theorem duplicate_check_any_status_witness :
    (create_application stTerminal "t1" "p1" (some "msg") none "a3" "x3" 9).1 =
      Except.error Err.duplicateApplication :=
  (duplicate_check_any_status stTerminal "t1" "p1" (some "msg") none "a3" "x3" 9
    tenantCompleteEx propertyEx rfl (by decide) rfl).mpr (by decide)

/-- C2 (refuted on the code): the three submit effects are not atomic.  When
the escrow insert raises after the application insert has executed, the
handler's `except` block re-raises without compensation: the new application
row is observable while no escrow transaction exists and the counter is
unchanged — a partial state. -/
theorem submit_not_atomic :
    (create_application_txInsertFails stReady "t1" "p1" none none "a1").1 =
      Except.error Err.storageUnavailable ∧
    (create_application_txInsertFails stReady "t1" "p1" none none "a1").2.applications =
      [("a1", app_dict "t1" "p1" none none)] ∧
    (create_application_txInsertFails stReady "t1" "p1" none none "a1").2.transactions = [] ∧
    (create_application_txInsertFails stReady "t1" "p1" none none "a1").2.properties =
      stReady.properties ∧
    (create_application_txInsertFails stReady "t1" "p1" none none "a1").2 ≠ stReady := by
  refine ⟨rfl, rfl, rfl, rfl, ?_⟩
  decide

end Nulo
